import Mathlib

/-!
Shallow embedding of the conversation-state and RAG-orchestration core of a
retrieval-augmented-generation service (FastAPI backend).

Embedded source files:
* `backend/app/services/document.py` — `DocumentService.chunk_text`
* `backend/app/services/memory.py` — `Message`, `ConversationSession`,
  `SessionMemoryService`
* `backend/app/api/routes.py` — the `chat` endpoint orchestration

Python-specific semantics (negative-index slicing, `range` with a
non-positive step, `str.split()` with no argument) are modelled explicitly
by small helper functions, so that each embedded definition follows the
source line by line.
-/

namespace Rag

/-- Helper for `pySplit`: walk the character list, accumulating the current
word (reversed); whitespace ends the current word, and empty words are never
emitted. -/
def splitWsAux : List Char → List Char → List (List Char)
  | [], [] => []
  | [], acc => [acc.reverse]
  | c :: cs, acc =>
    if c.isWhitespace then
      match acc with
      | [] => splitWsAux cs []
      | _ => acc.reverse :: splitWsAux cs []
    else splitWsAux cs (c :: acc)

/-- Python `text.split()` (no argument): split on runs of whitespace,
dropping empty pieces. -/
def pySplit (s : String) : List String :=
  (splitWsAux s.data []).map String.mk

/-- Python `s.strip()`: remove leading and trailing whitespace. -/
def pyStrip (s : String) : String :=
  String.mk (((s.data.dropWhile Char.isWhitespace).reverse.dropWhile Char.isWhitespace).reverse)

/-- Python `l[-n:]` for `n : Nat`: the last `n` elements, except that
`l[-0:]` is `l[0:]`, i.e. the whole list. -/
def pyLastSlice {α : Type} (l : List α) (n : Nat) : List α :=
  if n = 0 then l else l.drop (l.length - n)

/-- The error raised by Python `range(0, n, step)` when `step = 0`. -/
inductive PyError where
  | valueError
deriving Repr, DecidableEq

instance {ε α : Type} [DecidableEq ε] [DecidableEq α] : DecidableEq (Except ε α) := fun x y =>
  match x, y with
  | .ok a, .ok b => if h : a = b then .isTrue (by rw [h]) else .isFalse (by simp [h])
  | .error a, .error b => if h : a = b then .isTrue (by rw [h]) else .isFalse (by simp [h])
  | .ok _, .error _ => .isFalse (by simp)
  | .error _, .ok _ => .isFalse (by simp)

/-- Python `range(0, n, step)` for `step : Int`: raises `ValueError` when
`step = 0`, is empty when `step < 0`, and otherwise yields
`0, step, 2·step, …` strictly below `n`. -/
def pyRange0 (n : Nat) (step : Int) : Except PyError (List Nat) :=
  if step = 0 then .error .valueError
  else if step < 0 then .ok []
  else .ok ((List.range ((n + step.toNat - 1) / step.toNat)).map (fun k => k * step.toNat))

/-- `DocumentService.chunk_text` (document.py lines 54–84): split `text`
into words, then for each start offset produced by
`range(0, len(words), chunk_size - overlap)` join `words[i : i+chunk_size]`
with single spaces, keeping only chunks that are non-empty after strip. -/
def chunk_text (text : String) (chunk_size overlap : Nat) : Except PyError (List String) :=
  let words := pySplit text
  match pyRange0 words.length ((chunk_size : Int) - (overlap : Int)) with
  | .error e => .error e
  | .ok idxs =>
    .ok ((idxs.map (fun i => " ".intercalate ((words.drop i).take chunk_size))).filter
      (fun c => pyStrip c ≠ ""))

/-- The window of words behind the chunk emitted at offset `i`. -/
def chunkWindow (words : List String) (chunk_size i : Nat) : List String :=
  (words.drop i).take chunk_size

/-- Python `s.capitalize()`: first character uppercased, the rest
lowercased. -/
def pyCapitalize (s : String) : String :=
  match s.data with
  | [] => ""
  | c :: cs => String.mk (c.toUpper :: cs.map Char.toLower)

/-- `Message` (memory.py lines 11–16): role, content, and creation
timestamp. Time is modelled as a `Nat` instant supplied by the caller in
place of `datetime.now()`. -/
structure Message where
  role : String
  content : String
  timestamp : Nat
deriving Repr, DecidableEq

/-- `ConversationSession` (memory.py lines 29–36). -/
structure ConversationSession where
  session_id : String
  messages : List Message
  max_history : Nat
  created_at : Nat
  last_access : Nat
deriving Repr, DecidableEq

/-- `ConversationSession.add_message` (memory.py lines 38–48): append the
message, refresh `last_access`, then if the bound is exceeded keep only
`messages[-max_history:]`. -/
def ConversationSession.add_message (s : ConversationSession) (now : Nat)
    (role content : String) : ConversationSession :=
  let msgs := s.messages ++ [⟨role, content, now⟩]
  let msgs := if msgs.length > s.max_history then pyLastSlice msgs s.max_history else msgs
  { s with messages := msgs, last_access := now }

/-- A sequence of `add_message` calls against one session, used to state
properties about repeated appends. -/
def addMessages (s : ConversationSession) (now : Nat) (items : List (String × String)) :
    ConversationSession :=
  items.foldl (fun acc rc => acc.add_message now rc.1 rc.2) s

/-- `ConversationSession.get_history` (memory.py lines 50–54): all
messages when `last_n` is `None`, else `messages[-last_n:]`. -/
def ConversationSession.get_history (s : ConversationSession)
    (last_n : Option Nat) : List Message :=
  match last_n with
  | none => s.messages
  | some n => pyLastSlice s.messages n

/-- `ConversationSession.clear` (memory.py lines 64–67): empty the message
list; `last_access` is not touched. -/
def ConversationSession.clear (s : ConversationSession) : ConversationSession :=
  { s with messages := [] }

/-- `SessionMemoryService` (memory.py lines 80–87): the registry of
sessions. The Python `dict` is modelled as an insertion-ordered
association list. -/
structure SessionMemoryService where
  sessions : List (String × ConversationSession)
  max_history_per_session : Nat
  session_timeout : Nat
deriving Repr, DecidableEq

/-- Python `dict` lookup `d.get(k)` / `k in d` on the association list. -/
def getSess : List (String × ConversationSession) → String → Option ConversationSession
  | [], _ => none
  | (k, v) :: rest, id => if k = id then some v else getSess rest id

/-- Python `dict` assignment `d[k] = v`: replace in place if the key is
present, else append at the end. -/
def setSess : List (String × ConversationSession) → String → ConversationSession →
    List (String × ConversationSession)
  | [], id, s => [(id, s)]
  | (k, v) :: rest, id, s =>
    if k = id then (id, s) :: rest else (k, v) :: setSess rest id s

/-- `SessionMemoryService.create_session` (memory.py lines 89–98) followed
by the dict lookup on line 105: register a fresh session and return it.
The generated `uuid4` is modelled by the caller-supplied `fresh` string. -/
def SessionMemoryService.createAndGet (svc : SessionMemoryService) (now : Nat)
    (fresh : String) : SessionMemoryService × ConversationSession :=
  let s : ConversationSession :=
    { session_id := fresh, messages := [], max_history := svc.max_history_per_session,
      created_at := now, last_access := now }
  ({ svc with sessions := setSess svc.sessions fresh s }, s)

/-- `SessionMemoryService.get_session` (memory.py lines 100–114): create a
fresh session when the id is `None` or unknown; otherwise return the
stored session, clearing its messages first when `now - last_access`
exceeds the timeout. The returned session is always the registry's copy. -/
def SessionMemoryService.get_session (svc : SessionMemoryService) (now : Nat)
    (fresh : String) (sid : Option String) :
    SessionMemoryService × ConversationSession :=
  match sid with
  | none => svc.createAndGet now fresh
  | some id =>
    match getSess svc.sessions id with
    | none => svc.createAndGet now fresh
    | some s =>
      if now - s.last_access > svc.session_timeout then
        let s' := s.clear
        ({ svc with sessions := setSess svc.sessions id s' }, s')
      else
        (svc, s)

/-- `SessionMemoryService.add_message` (memory.py lines 116–123): resolve
the session with `get_session`, append, and return the resolved id. The
in-place mutation of the session object is modelled by writing the updated
session back into the registry under its id. -/
def SessionMemoryService.add_message (svc : SessionMemoryService) (now : Nat)
    (fresh : String) (sid : Option String) (role content : String) :
    SessionMemoryService × String :=
  let r := svc.get_session now fresh sid
  let s' := r.2.add_message now role content
  ({ r.1 with sessions := setSess r.1.sessions r.2.session_id s' }, r.2.session_id)

/-- `SessionMemoryService.get_conversation_history` (memory.py lines
125–135): empty for `None` or unknown ids, else the session's history.
A pure read — the service state is not touched. -/
def SessionMemoryService.get_conversation_history (svc : SessionMemoryService)
    (sid : Option String) (last_n : Option Nat) : List Message :=
  match sid with
  | none => []
  | some id =>
    match getSess svc.sessions id with
    | none => []
    | some s => s.get_history last_n

/-- `SessionMemoryService.get_conversation_context` (memory.py lines
137–154): empty string when there is no history, else a header line
followed by `Role: content` lines. -/
def SessionMemoryService.get_conversation_context (svc : SessionMemoryService)
    (sid : Option String) (last_n : Option Nat) : String :=
  let messages := svc.get_conversation_history sid last_n
  if messages = [] then ""
  else
    "\n".intercalate
      ("Previous conversation:" ::
        messages.map (fun m => pyCapitalize m.role ++ ": " ++ m.content))

/-- A search hit as returned by `VectorDBService.search` (vectordb.py lines
109–118): payload text, source filename, and the 0-based chunk index. The
similarity score plays no role in the orchestration and is omitted. -/
structure SearchResult where
  text : String
  source : String
  chunk_id : Nat
deriving Repr, DecidableEq

/-- `ChatRequest` (schemas.py lines 9–14). -/
structure ChatRequest where
  query : String
  top_k : Nat
  session_id : Option String
deriving Repr, DecidableEq

/-- `ChatResponse` (schemas.py lines 17–22). -/
structure ChatResponse where
  answer : String
  sources : List String
  session_id : String
deriving Repr, DecidableEq

/-- Embedding vectors are opaque to the orchestration; their contents are
never inspected by the code under study. -/
def Embedding : Type := List Int

/-- The external collaborators of the chat endpoint: the embedding model,
the vector index, and the generative model. `generate` may fail (raise),
which the orchestration surfaces as an error. -/
structure Collaborators where
  embed : String → Embedding
  search : Embedding → Nat → List SearchResult
  generate : String → String → Option String → Except String String

/-- The fixed fallback answer of the no-results branch (routes.py line
120). -/
def fallbackAnswer : String :=
  "I don't have enough information to answer this question. Please index some documents first."

/-- The source label built per search result (routes.py line 134):
`f"{result['source']} (chunk {result['chunk_id']})"`. -/
def sourceLabel (r : SearchResult) : String :=
  r.source ++ " (chunk " ++ toString r.chunk_id ++ ")"

/-- The accumulation step of the sources loop (routes.py lines 135–136):
append the label only when it is not already present. -/
def dedupStep (acc : List String) (s : String) : List String :=
  if s ∈ acc then acc else acc ++ [s]

/-- The sources loop (routes.py lines 132–136), separated from the
context-parts accumulation it is fused with in the source. -/
def buildSources (rs : List SearchResult) : List String :=
  rs.foldl (fun acc r => dedupStep acc (sourceLabel r)) []

/-- The context block (routes.py lines 129–138): the result texts in index
order, joined with a blank line. -/
def buildContext (rs : List SearchResult) : String :=
  "\n\n".intercalate (rs.map SearchResult.text)

/-- The history argument passed to generation (routes.py lines 140–149):
the formatted last-5-message context, with the empty string (falsy in
Python) replaced by `None`. -/
def historyArg (svc : SessionMemoryService) (sid : Option String) : Option String :=
  let h := svc.get_conversation_context sid (some 5)
  if h = "" then none else some h

/-- The `chat` endpoint (routes.py lines 96–164). The session registry is
threaded explicitly; `now` stands for every `datetime.now()` read during
the request, and `fresh1`, `fresh2` are the `uuid4` values drawn if a
session has to be created at the first or second `add_message`. A raising
`generate` call aborts the request before any state is written, and the
surrounding handler turns it into an HTTP 500 — modelled as the `.error`
result paired with the untouched registry. -/
def chat (collab : Collaborators) (svc : SessionMemoryService) (now : Nat)
    (fresh1 fresh2 : String) (req : ChatRequest) :
    SessionMemoryService × Except String ChatResponse :=
  let query_embedding := collab.embed req.query
  let search_results := collab.search query_embedding req.top_k
  if search_results = [] then
    let answer := fallbackAnswer
    let r1 := svc.add_message now fresh1 req.session_id "user" req.query
    let r2 := r1.1.add_message now fresh2 (some r1.2) "assistant" answer
    (r2.1, .ok { answer := answer, sources := [], session_id := r1.2 })
  else
    let context := buildContext search_results
    let sources := buildSources search_results
    match collab.generate req.query context (historyArg svc req.session_id) with
    | .error e => (svc, .error e)
    | .ok answer =>
      let r1 := svc.add_message now fresh1 req.session_id "user" req.query
      let r2 := r1.1.add_message now fresh2 (some r1.2) "assistant" answer
      (r2.1, .ok { answer := answer, sources := sources, session_id := r1.2 })

/-- First-seen-order deduplication of a list of strings: the reference
description of what the sources loop computes on the label sequence. -/
def firstSeenDedup (l : List String) : List String :=
  l.foldl dedupStep []

/-! ### Helper lemmas -/

/-- `add_message` always ends up keeping exactly `messages[-max_history:]`
of the appended list: when the bound is not exceeded the slice is the whole
list, and `[-0:]` is also the whole list. -/
theorem ConversationSession.add_message_messages (s : ConversationSession) (now : Nat)
    (role content : String) :
    (s.add_message now role content).messages =
      pyLastSlice (s.messages ++ [⟨role, content, now⟩]) s.max_history := by
  simp only [ConversationSession.add_message]
  split_ifs with h
  · rfl
  · unfold pyLastSlice
    by_cases h0 : s.max_history = 0
    · rw [if_pos h0]
    · rw [if_neg h0]
      have h' : s.messages.length + 1 ≤ s.max_history := by simpa using h
      have hlen :
          (s.messages ++ [(⟨role, content, now⟩ : Message)]).length - s.max_history = 0 := by
        simp
        omega
      rw [hlen, List.drop_zero]

/-- `add_message` stamps `last_access` with the current instant. -/
theorem ConversationSession.add_message_last_access (s : ConversationSession) (now : Nat)
    (role content : String) :
    (s.add_message now role content).last_access = now := by
  unfold ConversationSession.add_message
  by_cases h : (s.messages ++ [(⟨role, content, now⟩ : Message)]).length > s.max_history <;>
    simp [h]

/-- `add_message` changes neither the id nor the bound of a session. -/
theorem ConversationSession.add_message_id (s : ConversationSession) (now : Nat)
    (role content : String) :
    (s.add_message now role content).session_id = s.session_id ∧
    (s.add_message now role content).max_history = s.max_history := by
  unfold ConversationSession.add_message
  by_cases h : (s.messages ++ [(⟨role, content, now⟩ : Message)]).length > s.max_history <;>
    simp [h]

/-- For a positive bound, the `[-n:]` slice keeps at most `n` elements. -/
theorem pyLastSlice_length_le {α : Type} (l : List α) (n : Nat) (h : 1 ≤ n) :
    (pyLastSlice l n).length ≤ n := by
  unfold pyLastSlice
  rw [if_neg (by omega : ¬ n = 0)]
  simp
  omega

/-- The `[-n:]` slice of a list ending in `x` still ends in `x`. -/
theorem pyLastSlice_append_single {α : Type} (l : List α) (x : α) (n : Nat) :
    ∃ t, pyLastSlice (l ++ [x]) n = t ++ [x] := by
  unfold pyLastSlice
  by_cases h : n = 0
  · exact ⟨l, by simp [h]⟩
  · refine ⟨l.drop ((l ++ [x]).length - n), ?_⟩
    rw [if_neg h, List.drop_append_of_le_length (by simp; omega)]

/-- Looking up the key just written returns the written session. -/
theorem getSess_setSess_self (m : List (String × ConversationSession)) (k : String)
    (v : ConversationSession) : getSess (setSess m k v) k = some v := by
  induction m with
  | nil => simp [setSess, getSess]
  | cons p rest ih =>
    by_cases h : p.1 = k
    · simp [setSess, h, getSess]
    · simp [setSess, h, getSess, ih]

/-- Writing under a key already present does not change the registry
size. -/
theorem length_setSess_of_mem (m : List (String × ConversationSession)) (k : String)
    (v s : ConversationSession) (h : getSess m k = some s) :
    (setSess m k v).length = m.length := by
  induction m with
  | nil => simp [getSess] at h
  | cons p rest ih =>
    by_cases hk : p.1 = k
    · simp [setSess, hk]
    · simp [getSess, hk] at h
      simp [setSess, hk, ih h]

/-- `get_session` on a known, unexpired id returns the stored session and
leaves the service untouched. -/
theorem SessionMemoryService.get_session_known (svc : SessionMemoryService) (now : Nat)
    (fresh id : String) (s : ConversationSession) (h : getSess svc.sessions id = some s)
    (hlive : ¬ now - s.last_access > svc.session_timeout) :
    svc.get_session now fresh (some id) = (svc, s) := by
  simp [SessionMemoryService.get_session, h, hlive]

/-- `get_session` on a known, expired id clears the stored session in
place and returns the cleared session. -/
theorem SessionMemoryService.get_session_expired (svc : SessionMemoryService) (now : Nat)
    (fresh id : String) (s : ConversationSession) (h : getSess svc.sessions id = some s)
    (hexp : now - s.last_access > svc.session_timeout) :
    svc.get_session now fresh (some id) =
      ({ svc with sessions := setSess svc.sessions id s.clear }, s.clear) := by
  simp [SessionMemoryService.get_session, h, hexp]

/-- `get_session` with no id creates a fresh session. -/
theorem SessionMemoryService.get_session_none (svc : SessionMemoryService) (now : Nat)
    (fresh : String) : svc.get_session now fresh none = svc.createAndGet now fresh := rfl

/-- `get_session` with an unknown id creates a fresh session. -/
theorem SessionMemoryService.get_session_unknown (svc : SessionMemoryService) (now : Nat)
    (fresh id : String) (h : getSess svc.sessions id = none) :
    svc.get_session now fresh (some id) = svc.createAndGet now fresh := by
  simp [SessionMemoryService.get_session, h]

/-- The session handed out by `get_session` is stored in the returned
registry: under its own id when it was freshly created, and under the
looked-up id otherwise. -/
theorem SessionMemoryService.get_session_mem (svc : SessionMemoryService) (now : Nat)
    (fresh : String) (sid : Option String) :
    getSess (svc.get_session now fresh sid).1.sessions
        (svc.get_session now fresh sid).2.session_id =
      some (svc.get_session now fresh sid).2 ∨
    (∃ id, sid = some id ∧
      getSess (svc.get_session now fresh sid).1.sessions id =
        some (svc.get_session now fresh sid).2) := by
  rcases sid with _ | id
  · rw [SessionMemoryService.get_session_none]
    exact .inl (getSess_setSess_self _ _ _)
  · cases h : getSess svc.sessions id with
    | none =>
      rw [SessionMemoryService.get_session_unknown svc now fresh id h]
      exact .inl (getSess_setSess_self _ _ _)
    | some s =>
      by_cases hexp : now - s.last_access > svc.session_timeout
      · rw [SessionMemoryService.get_session_expired svc now fresh id s h hexp]
        exact .inr ⟨id, rfl, getSess_setSess_self _ _ _⟩
      · rw [SessionMemoryService.get_session_known svc now fresh id s h hexp]
        exact .inr ⟨id, rfl, h⟩

/-- `get_session` never changes the per-service configuration fields. -/
theorem SessionMemoryService.get_session_fields (svc : SessionMemoryService) (now : Nat)
    (fresh : String) (sid : Option String) :
    (svc.get_session now fresh sid).1.max_history_per_session =
        svc.max_history_per_session ∧
    (svc.get_session now fresh sid).1.session_timeout = svc.session_timeout := by
  rcases sid with _ | id
  · rw [SessionMemoryService.get_session_none]
    exact ⟨rfl, rfl⟩
  · cases h : getSess svc.sessions id with
    | none =>
      rw [SessionMemoryService.get_session_unknown svc now fresh id h]
      exact ⟨rfl, rfl⟩
    | some s =>
      by_cases hexp : now - s.last_access > svc.session_timeout
      · rw [SessionMemoryService.get_session_expired svc now fresh id s h hexp]
        exact ⟨rfl, rfl⟩
      · rw [SessionMemoryService.get_session_known svc now fresh id s h hexp]
        exact ⟨rfl, rfl⟩

/-- What one `add_message` call does, expressed through `get_session`: it
returns the resolved session's id, stores the appended session under that
id, and keeps the configuration fields. -/
theorem SessionMemoryService.add_message_spec (svc : SessionMemoryService) (now : Nat)
    (fresh : String) (sid : Option String) (role content : String) :
    (svc.add_message now fresh sid role content).2 =
        (svc.get_session now fresh sid).2.session_id ∧
    getSess (svc.add_message now fresh sid role content).1.sessions
        (svc.get_session now fresh sid).2.session_id =
      some ((svc.get_session now fresh sid).2.add_message now role content) ∧
    (svc.add_message now fresh sid role content).1.session_timeout =
        (svc.get_session now fresh sid).1.session_timeout ∧
    (svc.add_message now fresh sid role content).1.sessions =
      setSess (svc.get_session now fresh sid).1.sessions
        (svc.get_session now fresh sid).2.session_id
        ((svc.get_session now fresh sid).2.add_message now role content) := by
  exact ⟨rfl, getSess_setSess_self _ _ _, rfl, rfl⟩

/-- Folding the sources-loop step over labels extends the accumulator by a
subsequence of the labels. -/
theorem foldl_dedupStep_append (l : List String) (acc : List String) :
    ∃ e, l.foldl dedupStep acc = acc ++ e ∧ e.Sublist l := by
  induction l generalizing acc with
  | nil => exact ⟨[], by simp⟩
  | cons x xs ih =>
    simp only [List.foldl_cons]
    by_cases hx : x ∈ acc
    · rw [show dedupStep acc x = acc from by rw [dedupStep, if_pos hx]]
      obtain ⟨e, he, hs⟩ := ih acc
      exact ⟨e, he, hs.cons x⟩
    · rw [show dedupStep acc x = acc ++ [x] from by rw [dedupStep, if_neg hx]]
      obtain ⟨e, he, hs⟩ := ih (acc ++ [x])
      refine ⟨x :: e, ?_, hs.cons₂ x⟩
      rw [he, List.append_assoc]
      rfl

/-- Folding the sources-loop step preserves freedom from duplicates. -/
theorem foldl_dedupStep_nodup (l : List String) (acc : List String) (h : acc.Nodup) :
    (l.foldl dedupStep acc).Nodup := by
  induction l generalizing acc with
  | nil => simpa using h
  | cons x xs ih =>
    simp only [List.foldl_cons]
    apply ih
    by_cases hx : x ∈ acc
    · rw [dedupStep, if_pos hx]
      exact h
    · rw [dedupStep, if_neg hx]
      simp [List.nodup_append, h, hx]

/-- The fused loop of routes.py computes exactly the first-seen-order
dedup of the label sequence. -/
theorem buildSources_eq_firstSeenDedup (rs : List SearchResult) :
    buildSources rs = firstSeenDedup (rs.map sourceLabel) := by
  unfold buildSources firstSeenDedup
  rw [List.foldl_map]

/-- For a positive step, `range(0, n, step)` yields the multiples of the
step below `n`. -/
theorem pyRange0_pos (n : Nat) (step : Int) (h : 0 < step) :
    pyRange0 n step =
      .ok ((List.range ((n + step.toNat - 1) / step.toNat)).map (fun k => k * step.toNat)) := by
  unfold pyRange0
  rw [if_neg (by omega), if_neg (by omega)]

end Rag

/-! ### Claims -/

open Rag

/-- **C1, counterexample.** The claim says a configuration with
`overlap ≥ chunkSize` makes `chunk_text` fail with an
`InvalidConfiguration` error. The code has no such guard: with
`chunk_size = 2` and `overlap = 3` (step `-1`) on a two-word text the
Python `range` is simply empty and the call returns an empty chunk list
without any error. -/
theorem C1_counterexample :
    chunk_text "alpha beta" 2 3 = .ok [] ∧
    chunk_text "alpha beta" 2 3 ≠ .error .valueError := by
  constructor
  · decide
  · decide

/-- **C1, amended.** For every text and every configuration with
`overlap ≥ chunkSize` (step `≤ 0`), `chunk_text` terminates without
looping or producing duplicate chunks, but it does not raise a dedicated
`InvalidConfiguration` error: when `overlap = chunkSize` (step `= 0`) the
underlying `range` raises Python's `ValueError`, and when
`overlap > chunkSize` (step `< 0`) the call silently returns the empty
chunk list. -/
theorem C1_step_nonpositive (text : String) (chunk_size overlap : Nat)
    (_h : chunk_size ≤ overlap) :
    (chunk_size = overlap → chunk_text text chunk_size overlap = .error .valueError) ∧
    (chunk_size < overlap → chunk_text text chunk_size overlap = .ok []) := by
  constructor
  · intro he
    have hz : (chunk_size : Int) - (overlap : Int) = 0 := by omega
    simp [chunk_text, pyRange0, hz]
  · intro hlt
    have hz : ¬ ((chunk_size : Int) - (overlap : Int) = 0) := by omega
    have hneg : (chunk_size : Int) - (overlap : Int) < 0 := by omega
    simp [chunk_text, pyRange0, hz, hneg]

/-- **C1, witness** for `C1_step_nonpositive` at `chunk_size = 2`,
`overlap = 3` and at `chunk_size = 2`, `overlap = 2`. -/
theorem C1_step_nonpositive_witness :
    (2 = 2 → chunk_text "alpha beta" 2 2 = .error .valueError) ∧
    (2 < 3 → chunk_text "alpha beta" 2 3 = .ok []) :=
  ⟨(C1_step_nonpositive "alpha beta" 2 2 (by decide)).1,
   (C1_step_nonpositive "alpha beta" 2 3 (by decide)).2⟩

/-- **C8.** For every text and every valid configuration
(`overlap < chunkSize`), `chunk_text` succeeds and emits, in order, the
windows `words[i : i+chunkSize]` at the strictly increasing offsets
produced by `range(0, len(words), step)`, each joined with single spaces,
with empty windows dropped; every window holds at most `chunkSize` words.
On the concrete 6-word input with `chunkSize = 4`, `overlap = 1` it
produces exactly the two chunks `words[0:4]` and `words[3:6]`. The
operation is a pure function of its inputs (it is a Lean `def`), hence
deterministic. -/
theorem C8_chunking_valid_config :
    (∀ (text : String) (chunk_size overlap : Nat), overlap < chunk_size →
      ∃ idxs : List Nat,
        pyRange0 (pySplit text).length ((chunk_size : Int) - (overlap : Int)) = .ok idxs ∧
        idxs.Pairwise (· < ·) ∧
        chunk_text text chunk_size overlap =
          .ok ((idxs.map (fun i =>
              " ".intercalate (chunkWindow (pySplit text) chunk_size i))).filter
            (fun c => pyStrip c ≠ "")) ∧
        ∀ i ∈ idxs, (chunkWindow (pySplit text) chunk_size i).length ≤ chunk_size) ∧
    chunk_text "w1 w2 w3 w4 w5 w6" 4 1 = .ok ["w1 w2 w3 w4", "w4 w5 w6"] ∧
    "w1 w2 w3 w4" = " ".intercalate ((pySplit "w1 w2 w3 w4 w5 w6").take 4) ∧
    "w4 w5 w6" = " ".intercalate (((pySplit "w1 w2 w3 w4 w5 w6").drop 3).take 3) := by
  refine ⟨?_, by decide, by decide, by decide⟩
  intro text chunk_size overlap h
  have hpos : (0 : Int) < (chunk_size : Int) - (overlap : Int) := by omega
  have hstep : 0 < ((chunk_size : Int) - (overlap : Int)).toNat := by omega
  refine ⟨_, pyRange0_pos _ _ hpos, ?_, ?_, ?_⟩
  · refine List.Pairwise.map _ ?_ (List.pairwise_lt_range _)
    intro a b hab
    exact mul_lt_mul_of_pos_right hab hstep
  · rw [chunk_text, pyRange0_pos _ _ hpos]
    rfl
  · intro i _
    simp only [chunkWindow, List.length_take]
    omega

/-- **C8, witness** for `C8_chunking_valid_config` at the concrete 6-word
input with `chunk_size = 4`, `overlap = 1`. -/
theorem C8_chunking_valid_config_witness :
    ∃ idxs : List Nat,
      pyRange0 (pySplit "w1 w2 w3 w4 w5 w6").length ((4 : Int) - (1 : Int)) = .ok idxs ∧
      idxs.Pairwise (· < ·) ∧
      chunk_text "w1 w2 w3 w4 w5 w6" 4 1 =
        .ok ((idxs.map (fun i =>
            " ".intercalate (chunkWindow (pySplit "w1 w2 w3 w4 w5 w6") 4 i))).filter
          (fun c => pyStrip c ≠ "")) ∧
      ∀ i ∈ idxs, (chunkWindow (pySplit "w1 w2 w3 w4 w5 w6") 4 i).length ≤ 4 :=
  C8_chunking_valid_config.1 "w1 w2 w3 w4 w5 w6" 4 1 (by decide)

/-- **C2, counterexample.** The invariant `len(messages) ≤ maxHistory`
does not hold for every session: with `max_history = 0` the trimming
slice is `messages[-0:]`, which is the whole list, so one `add_message`
leaves 1 message — strictly more than the bound 0. -/
theorem C2_counterexample :
    ((ConversationSession.mk "s" [] 0 0 0).add_message 1 "user" "hi").messages.length >
      (ConversationSession.mk "s" [] 0 0 0).max_history := by
  decide

/-- **C2, amended.** For every session with `maxHistory ≥ 1` (which
includes every session the service creates with its default bound 10),
`len(messages) ≤ maxHistory` holds after each `add_message`, and the
retained messages are exactly the `maxHistory`-suffix of the appended
list (FIFO eviction, applied synchronously by the inserting call).
Appending 12 messages to a fresh session with `maxHistory = 10` leaves
exactly the last 10 in original insertion order. -/
theorem C2_history_bound :
    (∀ (s : ConversationSession) (now : Nat) (role content : String),
      1 ≤ s.max_history →
      (s.add_message now role content).messages.length ≤ s.max_history ∧
      (s.add_message now role content).messages =
        pyLastSlice (s.messages ++ [⟨role, content, now⟩]) s.max_history) ∧
    (addMessages (ConversationSession.mk "s" [] 10 0 0) 0
        [("user", "m01"), ("user", "m02"), ("user", "m03"), ("user", "m04"),
         ("user", "m05"), ("user", "m06"), ("user", "m07"), ("user", "m08"),
         ("user", "m09"), ("user", "m10"), ("user", "m11"), ("user", "m12")]).messages =
      [⟨"user", "m03", 0⟩, ⟨"user", "m04", 0⟩, ⟨"user", "m05", 0⟩, ⟨"user", "m06", 0⟩,
       ⟨"user", "m07", 0⟩, ⟨"user", "m08", 0⟩, ⟨"user", "m09", 0⟩, ⟨"user", "m10", 0⟩,
       ⟨"user", "m11", 0⟩, ⟨"user", "m12", 0⟩] := by
  constructor
  · intro s now role content h1
    constructor
    · rw [ConversationSession.add_message_messages]
      exact pyLastSlice_length_le _ _ h1
    · exact ConversationSession.add_message_messages s now role content
  · decide

/-- **C2, witness** for `C2_history_bound` at a concrete session with
bound 1 holding one message already. -/
theorem C2_history_bound_witness :
    ((ConversationSession.mk "s" [⟨"user", "a", 0⟩] 1 0 0).add_message 5 "assistant" "b").messages.length ≤ 1 ∧
    ((ConversationSession.mk "s" [⟨"user", "a", 0⟩] 1 0 0).add_message 5 "assistant" "b").messages =
      pyLastSlice ([⟨"user", "a", 0⟩] ++ [⟨"assistant", "b", 5⟩]) 1 :=
  C2_history_bound.1 (ConversationSession.mk "s" [⟨"user", "a", 0⟩] 1 0 0) 5 "assistant" "b"
    (by decide)

/-- **C10.** `get_history` with `last_n = 0` returns the entire message
list — the same result as calling it with `last_n` absent — because the
slice `messages[-0:]` is the whole list. -/
theorem C10_get_history_zero (s : ConversationSession) :
    s.get_history (some 0) = s.messages ∧ s.get_history (some 0) = s.get_history none := by
  constructor <;> simp [ConversationSession.get_history, pyLastSlice]

/-- **C3.** Fetching an expired session through `get_session` clears its
message list (an empty history is returned) but keeps the same session
identifier and the same registry entry: no new identifier is issued, the
registry does not grow, and the id remains valid and reusable. -/
theorem C3_expiry_retains_id (svc : SessionMemoryService) (now : Nat) (fresh id : String)
    (s : ConversationSession) (hs : getSess svc.sessions id = some s)
    (hexp : now - s.last_access > svc.session_timeout) :
    (svc.get_session now fresh (some id)).2.messages = [] ∧
    (svc.get_session now fresh (some id)).2.get_history none = [] ∧
    (svc.get_session now fresh (some id)).2.session_id = s.session_id ∧
    getSess (svc.get_session now fresh (some id)).1.sessions id =
      some (svc.get_session now fresh (some id)).2 ∧
    (svc.get_session now fresh (some id)).1.sessions.length = svc.sessions.length := by
  rw [SessionMemoryService.get_session_expired svc now fresh id s hs hexp]
  exact ⟨rfl, rfl, rfl, getSess_setSess_self _ _ _,
    length_setSess_of_mem svc.sessions id s.clear s hs⟩

/-- **C3, witness** for `C3_expiry_retains_id`: a session last accessed
at instant 0 with a 10-unit timeout, fetched at instant 11. -/
theorem C3_expiry_retains_id_witness :
    ((SessionMemoryService.mk [("a", ⟨"a", [⟨"user", "q", 0⟩], 10, 0, 0⟩)] 10 10).get_session
        11 "f" (some "a")).2.messages = [] ∧
    ((SessionMemoryService.mk [("a", ⟨"a", [⟨"user", "q", 0⟩], 10, 0, 0⟩)] 10 10).get_session
        11 "f" (some "a")).2.get_history none = [] ∧
    ((SessionMemoryService.mk [("a", ⟨"a", [⟨"user", "q", 0⟩], 10, 0, 0⟩)] 10 10).get_session
        11 "f" (some "a")).2.session_id = (ConversationSession.mk "a" [⟨"user", "q", 0⟩] 10 0 0).session_id ∧
    getSess ((SessionMemoryService.mk [("a", ⟨"a", [⟨"user", "q", 0⟩], 10, 0, 0⟩)] 10 10).get_session
        11 "f" (some "a")).1.sessions "a" =
      some ((SessionMemoryService.mk [("a", ⟨"a", [⟨"user", "q", 0⟩], 10, 0, 0⟩)] 10 10).get_session
        11 "f" (some "a")).2 ∧
    ((SessionMemoryService.mk [("a", ⟨"a", [⟨"user", "q", 0⟩], 10, 0, 0⟩)] 10 10).get_session
        11 "f" (some "a")).1.sessions.length =
      (SessionMemoryService.mk [("a", ⟨"a", [⟨"user", "q", 0⟩], 10, 0, 0⟩)] 10 10).sessions.length :=
  C3_expiry_retains_id (SessionMemoryService.mk [("a", ⟨"a", [⟨"user", "q", 0⟩], 10, 0, 0⟩)] 10 10)
    11 "f" "a" (ConversationSession.mk "a" [⟨"user", "q", 0⟩] 10 0 0) (by decide) (by decide)

/-- **C9, counterexample.** Not every operation that reads a session
updates `lastAccess`: `get_session` on a live session at instant 5
returns the session with `lastAccess` still 0 and leaves the registry
byte-for-byte unchanged, so the read did not refresh `lastAccess` to the
current instant. -/
theorem C9_counterexample :
    ((SessionMemoryService.mk [("a", ⟨"a", [⟨"user", "q", 0⟩], 10, 0, 0⟩)] 10 10).get_session
        5 "f" (some "a")).2.last_access = 0 ∧
    ((SessionMemoryService.mk [("a", ⟨"a", [⟨"user", "q", 0⟩], 10, 0, 0⟩)] 10 10).get_session
        5 "f" (some "a")).1 =
      SessionMemoryService.mk [("a", ⟨"a", [⟨"user", "q", 0⟩], 10, 0, 0⟩)] 10 10 ∧
    (0 : Nat) ≠ 5 := by
  decide

/-- **C9, amended.** `lastAccess` is refreshed to the current instant by
`add_message` (writes). Reads do not touch it: `get_session` on a live
session returns it with the service state unchanged, and even the lazy
expiry clearing keeps the old `lastAccess` (`get_conversation_history`
takes no clock input at all — it is a pure function of the state). -/
theorem C9_last_access_write_only :
    (∀ (s : ConversationSession) (now : Nat) (role content : String),
      (s.add_message now role content).last_access = now) ∧
    (∀ (svc : SessionMemoryService) (now : Nat) (fresh id : String) (s : ConversationSession),
      getSess svc.sessions id = some s → ¬ now - s.last_access > svc.session_timeout →
      svc.get_session now fresh (some id) = (svc, s)) ∧
    (∀ (svc : SessionMemoryService) (now : Nat) (fresh id : String) (s : ConversationSession),
      getSess svc.sessions id = some s → now - s.last_access > svc.session_timeout →
      (svc.get_session now fresh (some id)).2.last_access = s.last_access) := by
  refine ⟨ConversationSession.add_message_last_access,
    SessionMemoryService.get_session_known, ?_⟩
  intro svc now fresh id s hs hexp
  rw [SessionMemoryService.get_session_expired svc now fresh id s hs hexp]
  rfl

/-- **C9, witness** for `C9_last_access_write_only` at concrete sessions:
a write at instant 7 stamps 7; a live read at instant 5 returns the
session unchanged; an expired fetch at instant 11 keeps `lastAccess`
0. -/
theorem C9_last_access_write_only_witness :
    ((ConversationSession.mk "a" [] 10 0 0).add_message 7 "user" "q").last_access = 7 ∧
    (SessionMemoryService.mk [("a", ⟨"a", [], 10, 0, 0⟩)] 10 10).get_session 5 "f" (some "a") =
      (SessionMemoryService.mk [("a", ⟨"a", [], 10, 0, 0⟩)] 10 10,
        ConversationSession.mk "a" [] 10 0 0) ∧
    ((SessionMemoryService.mk [("a", ⟨"a", [], 10, 0, 0⟩)] 10 10).get_session 11 "f"
        (some "a")).2.last_access = (ConversationSession.mk "a" [] 10 0 0).last_access :=
  ⟨C9_last_access_write_only.1 (ConversationSession.mk "a" [] 10 0 0) 7 "user" "q",
   C9_last_access_write_only.2.1 (SessionMemoryService.mk [("a", ⟨"a", [], 10, 0, 0⟩)] 10 10)
     5 "f" "a" (ConversationSession.mk "a" [] 10 0 0) (by decide) (by decide),
   C9_last_access_write_only.2.2 (SessionMemoryService.mk [("a", ⟨"a", [], 10, 0, 0⟩)] 10 10)
     11 "f" "a" (ConversationSession.mk "a" [] 10 0 0) (by decide) (by decide)⟩

/-- **C5.** `add_message` returns the id of the session it appended to;
that id denotes a session present in the registry at the moment of
return; and a second `add_message` call reusing the returned id appends
to that same session — the user turn recorded with a `None` id and the
following assistant turn recorded with the returned id land in one
session, not two (the registry does not grow at the second call). -/
theorem C5_same_session (svc : SessionMemoryService) (now : Nat)
    (fresh1 fresh2 role1 content1 role2 content2 : String)
    (svc1 : SessionMemoryService) (sid : String)
    (h1 : svc.add_message now fresh1 none role1 content1 = (svc1, sid))
    (svc2 : SessionMemoryService) (sid2 : String)
    (h2 : svc1.add_message now fresh2 (some sid) role2 content2 = (svc2, sid2)) :
    ∃ s1, getSess svc1.sessions sid = some s1 ∧
      s1.session_id = sid ∧
      (∃ t, s1.messages = t ++ [⟨role1, content1, now⟩]) ∧
      sid2 = sid ∧
      svc2.sessions.length = svc1.sessions.length ∧
      ∃ s2, getSess svc2.sessions sid = some s2 ∧
        s2.messages = pyLastSlice (s1.messages ++ [⟨role2, content2, now⟩]) s1.max_history := by
  have e1a : (svc.add_message now fresh1 none role1 content1).1 = svc1 := by rw [h1]
  have e1b : (svc.add_message now fresh1 none role1 content1).2 = sid := by rw [h1]
  rw [← e1a, ← e1b] at h2 ⊢
  have e2a : ((svc.add_message now fresh1 none role1 content1).1.add_message now fresh2
      (some (svc.add_message now fresh1 none role1 content1).2) role2 content2).1 = svc2 := by
    rw [h2]
  have e2b : ((svc.add_message now fresh1 none role1 content1).1.add_message now fresh2
      (some (svc.add_message now fresh1 none role1 content1).2) role2 content2).2 = sid2 := by
    rw [h2]
  rw [← e2a, ← e2b]
  obtain ⟨hA, hB, -, hD⟩ := svc.add_message_spec now fresh1 none role1 content1
  have hget1 : getSess (svc.add_message now fresh1 none role1 content1).1.sessions
      (svc.add_message now fresh1 none role1 content1).2 =
      some ((svc.get_session now fresh1 none).2.add_message now role1 content1) := by
    rw [hA]
    exact hB
  have hkey : ((svc.get_session now fresh1 none).2.add_message now role1 content1).session_id =
      (svc.add_message now fresh1 none role1 content1).2 := by
    rw [(ConversationSession.add_message_id _ now role1 content1).1]
    exact hA.symm
  have hlast : ((svc.get_session now fresh1 none).2.add_message now role1 content1).last_access =
      now := ConversationSession.add_message_last_access _ now role1 content1
  have hlive : ¬ now -
      ((svc.get_session now fresh1 none).2.add_message now role1 content1).last_access >
      (svc.add_message now fresh1 none role1 content1).1.session_timeout := by
    rw [hlast]
    omega
  have egs := SessionMemoryService.get_session_known
    (svc.add_message now fresh1 none role1 content1).1 now fresh2
    (svc.add_message now fresh1 none role1 content1).2
    ((svc.get_session now fresh1 none).2.add_message now role1 content1) hget1 hlive
  obtain ⟨hA2, hB2, -, hD2⟩ := (svc.add_message now fresh1 none role1 content1).1.add_message_spec
    now fresh2 (some (svc.add_message now fresh1 none role1 content1).2) role2 content2
  rw [egs] at hA2 hB2 hD2
  refine ⟨(svc.get_session now fresh1 none).2.add_message now role1 content1, hget1, hkey, ?_,
    ?_, ?_, ?_⟩
  · rw [ConversationSession.add_message_messages]
    exact pyLastSlice_append_single _ _ _
  · rw [hA2]
    exact hkey
  · rw [hD2]
    refine length_setSess_of_mem _ _ _
      ((svc.get_session now fresh1 none).2.add_message now role1 content1) ?_
    rw [hkey]
    exact hget1
  · refine ⟨((svc.get_session now fresh1 none).2.add_message now role1 content1).add_message
      now role2 content2, ?_, ?_⟩
    · rw [← hkey]
      exact hB2
    · exact ConversationSession.add_message_messages _ now role2 content2

/-- **C5, witness** for `C5_same_session` on the empty service at instant
7 with fresh ids `"A"`, `"B"`. -/
theorem C5_same_session_witness :
    ∃ s1, getSess ((SessionMemoryService.mk [] 10 24).add_message 7 "A" none "user" "q").1.sessions
        ((SessionMemoryService.mk [] 10 24).add_message 7 "A" none "user" "q").2 = some s1 ∧
      s1.session_id = ((SessionMemoryService.mk [] 10 24).add_message 7 "A" none "user" "q").2 ∧
      (∃ t, s1.messages = t ++ [⟨"user", "q", 7⟩]) ∧
      (((SessionMemoryService.mk [] 10 24).add_message 7 "A" none "user" "q").1.add_message 7 "B"
          (some ((SessionMemoryService.mk [] 10 24).add_message 7 "A" none "user" "q").2)
          "assistant" "a").2 =
        ((SessionMemoryService.mk [] 10 24).add_message 7 "A" none "user" "q").2 ∧
      (((SessionMemoryService.mk [] 10 24).add_message 7 "A" none "user" "q").1.add_message 7 "B"
          (some ((SessionMemoryService.mk [] 10 24).add_message 7 "A" none "user" "q").2)
          "assistant" "a").1.sessions.length =
        ((SessionMemoryService.mk [] 10 24).add_message 7 "A" none "user" "q").1.sessions.length ∧
      ∃ s2, getSess (((SessionMemoryService.mk [] 10 24).add_message 7 "A" none
            "user" "q").1.add_message 7 "B"
            (some ((SessionMemoryService.mk [] 10 24).add_message 7 "A" none "user" "q").2)
            "assistant" "a").1.sessions
          ((SessionMemoryService.mk [] 10 24).add_message 7 "A" none "user" "q").2 = some s2 ∧
        s2.messages = pyLastSlice (s1.messages ++ [⟨"assistant", "a", 7⟩]) s1.max_history :=
  C5_same_session (SessionMemoryService.mk [] 10 24) 7 "A" "B" "user" "q" "assistant" "a"
    ((SessionMemoryService.mk [] 10 24).add_message 7 "A" none "user" "q").1
    ((SessionMemoryService.mk [] 10 24).add_message 7 "A" none "user" "q").2 rfl
    (((SessionMemoryService.mk [] 10 24).add_message 7 "A" none "user" "q").1.add_message 7 "B"
        (some ((SessionMemoryService.mk [] 10 24).add_message 7 "A" none "user" "q").2)
        "assistant" "a").1
    (((SessionMemoryService.mk [] 10 24).add_message 7 "A" none "user" "q").1.add_message 7 "B"
        (some ((SessionMemoryService.mk [] 10 24).add_message 7 "A" none "user" "q").2)
        "assistant" "a").2 rfl

/-- **C6.** If the generation collaborator fails, the chat request
surfaces the error and commits nothing: the returned registry state is
exactly the input state, so no messages are appended to any session for
that turn. -/
theorem C6_generation_failure_no_commit (collab : Collaborators) (svc : SessionMemoryService)
    (now : Nat) (fresh1 fresh2 : String) (req : ChatRequest) (e : String)
    (hne : collab.search (collab.embed req.query) req.top_k ≠ [])
    (hgen : collab.generate req.query
        (buildContext (collab.search (collab.embed req.query) req.top_k))
        (historyArg svc req.session_id) = .error e) :
    chat collab svc now fresh1 fresh2 req = (svc, .error e) := by
  simp only [chat]
  rw [if_neg hne, hgen]

/-- **C6, witness** for `C6_generation_failure_no_commit`: one search hit
and a generator that always raises leave the empty registry untouched. -/
theorem C6_generation_failure_no_commit_witness :
    chat ⟨fun _ => [], fun _ _ => [⟨"t", "doc", 0⟩], fun _ _ _ => .error "boom"⟩
        (SessionMemoryService.mk [] 10 24) 0 "A" "B" ⟨"q", 3, none⟩ =
      (SessionMemoryService.mk [] 10 24, .error "boom") :=
  C6_generation_failure_no_commit
    ⟨fun _ => [], fun _ _ => [⟨"t", "doc", 0⟩], fun _ _ _ => .error "boom"⟩
    (SessionMemoryService.mk [] 10 24) 0 "A" "B" ⟨"q", 3, none⟩ "boom" (by decide) rfl

/-- **C4.** When the vector index returns no results, the chat request
makes no generation call (the outcome is identical for every generator),
returns the fixed fallback answer with an empty source list and a valid
session id registered at the moment of return, and records the user
query followed by the fallback answer as two turns of that same
session. -/
theorem C4_no_results_fallback (collab : Collaborators) (svc : SessionMemoryService)
    (now : Nat) (fresh1 fresh2 : String) (req : ChatRequest)
    (h : collab.search (collab.embed req.query) req.top_k = []) :
    ∃ svc' resp,
      chat collab svc now fresh1 fresh2 req = (svc', .ok resp) ∧
      resp.answer = fallbackAnswer ∧
      resp.sources = [] ∧
      (∃ s', getSess svc'.sessions resp.session_id = some s' ∧
        ∃ old, s'.messages =
          pyLastSlice (old ++ [⟨"user", req.query, now⟩, ⟨"assistant", fallbackAnswer, now⟩])
            s'.max_history) ∧
      (∀ g, chat { collab with generate := g } svc now fresh1 fresh2 req = (svc', .ok resp)) := by
  have hch : ∀ (c : Collaborators), c.embed = collab.embed → c.search = collab.search →
      chat c svc now fresh1 fresh2 req =
      (((svc.add_message now fresh1 req.session_id "user" req.query).1.add_message now fresh2
          (some (svc.add_message now fresh1 req.session_id "user" req.query).2) "assistant"
          fallbackAnswer).1,
        .ok ⟨fallbackAnswer, [],
          (svc.add_message now fresh1 req.session_id "user" req.query).2⟩) := by
    intro c hce hcs
    simp only [chat, hce, hcs]
    rw [if_pos h]
  refine ⟨_, _, hch collab rfl rfl, rfl, rfl, ?_,
    fun g => hch { collab with generate := g } rfl rfl⟩
  obtain ⟨hA, hB, -, hD⟩ := svc.add_message_spec now fresh1 req.session_id "user" req.query
  have hget1 : getSess (svc.add_message now fresh1 req.session_id "user" req.query).1.sessions
      (svc.add_message now fresh1 req.session_id "user" req.query).2 =
      some ((svc.get_session now fresh1 req.session_id).2.add_message now "user" req.query) := by
    rw [hA]
    exact hB
  have hkey : ((svc.get_session now fresh1 req.session_id).2.add_message now
        "user" req.query).session_id =
      (svc.add_message now fresh1 req.session_id "user" req.query).2 := by
    rw [(ConversationSession.add_message_id _ now "user" req.query).1]
    exact hA.symm
  have hlast : ((svc.get_session now fresh1 req.session_id).2.add_message now
      "user" req.query).last_access = now :=
    ConversationSession.add_message_last_access _ now "user" req.query
  have hlive : ¬ now - ((svc.get_session now fresh1 req.session_id).2.add_message now
        "user" req.query).last_access >
      (svc.add_message now fresh1 req.session_id "user" req.query).1.session_timeout := by
    rw [hlast]
    omega
  have egs := SessionMemoryService.get_session_known
    (svc.add_message now fresh1 req.session_id "user" req.query).1 now fresh2
    (svc.add_message now fresh1 req.session_id "user" req.query).2
    ((svc.get_session now fresh1 req.session_id).2.add_message now "user" req.query) hget1 hlive
  obtain ⟨hA2, hB2, -, -⟩ :=
    (svc.add_message now fresh1 req.session_id "user" req.query).1.add_message_spec now fresh2
      (some (svc.add_message now fresh1 req.session_id "user" req.query).2) "assistant"
      fallbackAnswer
  rw [egs] at hA2 hB2
  refine ⟨((svc.get_session now fresh1 req.session_id).2.add_message now
      "user" req.query).add_message now "assistant" fallbackAnswer, ?_, ?_⟩
  · rw [← hkey]
    exact hB2
  · obtain ⟨old, hold⟩ := pyLastSlice_append_single
      (svc.get_session now fresh1 req.session_id).2.messages
      (⟨"user", req.query, now⟩ : Message)
      (svc.get_session now fresh1 req.session_id).2.max_history
    refine ⟨old, ?_⟩
    rw [(ConversationSession.add_message_id _ now "assistant" fallbackAnswer).2,
      ConversationSession.add_message_messages, ConversationSession.add_message_messages,
      hold, List.append_assoc]
    rw [(ConversationSession.add_message_id _ now "user" req.query).2]
    rfl

/-- **C4, witness** for `C4_no_results_fallback`: an index that returns
nothing, called on the empty registry at instant 3. -/
theorem C4_no_results_fallback_witness :
    ∃ svc' resp,
      chat ⟨fun _ => [], fun _ _ => [], fun _ _ _ => .ok "x"⟩ (SessionMemoryService.mk [] 10 24)
          3 "A" "B" ⟨"q", 3, none⟩ = (svc', .ok resp) ∧
      resp.answer = fallbackAnswer ∧
      resp.sources = [] ∧
      (∃ s', getSess svc'.sessions resp.session_id = some s' ∧
        ∃ old, s'.messages =
          pyLastSlice (old ++ [⟨"user", "q", 3⟩, ⟨"assistant", fallbackAnswer, 3⟩])
            s'.max_history) ∧
      (∀ g, chat { (⟨fun _ => [], fun _ _ => [], fun _ _ _ => .ok "x"⟩ : Collaborators) with
          generate := g } (SessionMemoryService.mk [] 10 24) 3 "A" "B" ⟨"q", 3, none⟩ =
        (svc', .ok resp)) :=
  C4_no_results_fallback ⟨fun _ => [], fun _ _ => [], fun _ _ _ => .ok "x"⟩
    (SessionMemoryService.mk [] 10 24) 3 "A" "B" ⟨"q", 3, none⟩ rfl

/-- **C7.** On a non-empty result list the chat request passes generation
the result texts joined with a blank line, in index order, and returns as
`sources` the labels `"{source} (chunk {chunk_id})"` deduplicated by
exact string equality in first-seen order: the source list is duplicate
free and a subsequence of the label sequence, and two results with
identical `(source, chunk_id)` collapse to one entry. -/
theorem C7_sources_dedup (collab : Collaborators) (svc : SessionMemoryService) (now : Nat)
    (fresh1 fresh2 : String) (req : ChatRequest) (rs : List SearchResult) (ans : String)
    (hres : collab.search (collab.embed req.query) req.top_k = rs) (hne : rs ≠ [])
    (hgen : collab.generate req.query ("\n\n".intercalate (rs.map SearchResult.text))
        (historyArg svc req.session_id) = .ok ans) :
    (∃ svc' sid, chat collab svc now fresh1 fresh2 req =
      (svc', .ok ⟨ans, firstSeenDedup (rs.map sourceLabel), sid⟩)) ∧
    (firstSeenDedup (rs.map sourceLabel)).Nodup ∧
    (firstSeenDedup (rs.map sourceLabel)).Sublist (rs.map sourceLabel) ∧
    buildSources [⟨"tA", "doc", 0⟩, ⟨"tB", "doc", 0⟩] = ["doc (chunk 0)"] := by
  refine ⟨?_, foldl_dedupStep_nodup _ [] List.nodup_nil, ?_, by decide⟩
  · refine ⟨((svc.add_message now fresh1 req.session_id "user" req.query).1.add_message now
        fresh2 (some (svc.add_message now fresh1 req.session_id "user" req.query).2)
        "assistant" ans).1,
      (svc.add_message now fresh1 req.session_id "user" req.query).2, ?_⟩
    simp only [chat, hres]
    rw [if_neg hne]
    simp only [buildContext]
    rw [hgen, buildSources_eq_firstSeenDedup]
  · obtain ⟨e, he, hs⟩ := foldl_dedupStep_append (rs.map sourceLabel) []
    unfold firstSeenDedup
    rw [he]
    simpa using hs

/-- **C7, witness** for `C7_sources_dedup`: two hits on the same
`(source, chunk 0)` collapse to the single label `"doc (chunk 0)"`. -/
theorem C7_sources_dedup_witness :
    (∃ svc' sid, chat ⟨fun _ => [], fun _ _ => [⟨"tA", "doc", 0⟩, ⟨"tB", "doc", 0⟩],
        fun _ _ _ => .ok "ANS"⟩ (SessionMemoryService.mk [] 10 24) 3 "A" "B" ⟨"q", 3, none⟩ =
      (svc', .ok ⟨"ANS",
        firstSeenDedup ([⟨"tA", "doc", 0⟩, ⟨"tB", "doc", 0⟩].map sourceLabel), sid⟩)) ∧
    (firstSeenDedup ([⟨"tA", "doc", 0⟩, ⟨"tB", "doc", 0⟩].map sourceLabel)).Nodup ∧
    (firstSeenDedup ([⟨"tA", "doc", 0⟩, ⟨"tB", "doc", 0⟩].map sourceLabel)).Sublist
      ([⟨"tA", "doc", 0⟩, ⟨"tB", "doc", 0⟩].map sourceLabel) ∧
    buildSources [⟨"tA", "doc", 0⟩, ⟨"tB", "doc", 0⟩] = ["doc (chunk 0)"] :=
  C7_sources_dedup ⟨fun _ => [], fun _ _ => [⟨"tA", "doc", 0⟩, ⟨"tB", "doc", 0⟩],
      fun _ _ _ => .ok "ANS"⟩ (SessionMemoryService.mk [] 10 24) 3 "A" "B" ⟨"q", 3, none⟩
    [⟨"tA", "doc", 0⟩, ⟨"tB", "doc", 0⟩] "ANS" rfl (by decide) rfl
